import Mathlib

/-!
Shallow embedding of the wishlist-sharing backend (TypeScript/Express/Mongoose).

Each HTTP handler is embedded as a pure Lean function.  The document-database
lookup that a handler performs (`Wishlist.findById`, `User.findOne`) is passed
in as an `Option` argument — the handler body is then a faithful translation of
the TypeScript control flow.  JavaScript truthiness on strings and numbers is
made explicit (`truthy`, the `price || null` coercion), and the Mongoose
schema setters on `pendingInvites` (`lowercase: true, trim: true`) are applied
at the point the value enters the array, as Mongoose casting does.
-/

namespace WishlistApp

/-- JavaScript truthiness of an optional string field from a request body:
`undefined` and the empty string are falsy. -/
def truthy : Option String → Bool
  | none => false
  | some s => s != ""

/-- An embedded wishlist item (`itemSchema` in `src/models/Wishlist.ts`).
`price` is nullable; `createdAt` is a timestamp. -/
structure Item where
  id : String
  name : String
  description : String
  price : Option Int
  url : String
  isPurchased : Bool
  addedBy : String
  createdAt : Nat
  deriving Repr, DecidableEq

/-- A wishlist document (`wishlistSchema`): metadata, embedded item sequence,
collaborator user-id list and pending-invite email list.  `type` is one of
the strings "private" or "collaborative" exactly as stored. -/
structure Wishlist where
  id : String
  name : String
  description : String
  owner : String
  type : String
  items : List Item
  collaborators : List String
  pendingInvites : List String
  deriving Repr, DecidableEq

/-- A registered user as returned by `User.findOne` (only the fields the
wishlist handlers read). -/
structure UserRec where
  id : String
  username : String
  email : String
  deriving Repr, DecidableEq

/-- The observable outcome of a handler: an HTTP status with a success
payload, or an HTTP status with an error message (`success: false`). -/
inductive HandlerResult (α : Type) where
  | ok : Nat → α → HandlerResult α
  | failure : Nat → String → HandlerResult α
  deriving Repr, DecidableEq

namespace HandlerResult

def isOk {α : Type} : HandlerResult α → Bool
  | .ok _ _ => true
  | .failure _ _ => false

def status {α : Type} : HandlerResult α → Nat
  | .ok s _ => s
  | .failure s _ => s

end HandlerResult

open HandlerResult

/-- `String.prototype.toLowerCase` as the Mongoose `lowercase: true` setter
applies it, character by character. -/
def lowerAscii (s : String) : String :=
  String.mk (s.data.map Char.toLower)

/-- `String.prototype.trim` as the Mongoose `trim: true` setter applies it:
strip whitespace from both ends. -/
def trimWs (s : String) : String :=
  String.mk
    (((s.data.dropWhile Char.isWhitespace).reverse.dropWhile
        Char.isWhitespace).reverse)

/-- Mongoose setter chain on `pendingInvites` entries: `lowercase: true`,
`trim: true` — applied when a value is cast into the array. -/
def normalizeEmail (e : String) : String :=
  trimWs (lowerAscii e)

/-- The `type && !['private','collaborative'].includes(type)` validation test
shared by create and used (positively) by update. -/
def invalidType (ty : Option String) : Bool :=
  match ty with
  | none => false
  | some t => (t != "") && !(["private", "collaborative"].contains t)

/-- `createWishlist` handler (POST /api/wishlists).  `freshId` stands for the
identifier the database assigns to the new document. -/
def createWishlist (userId : String) (name description ty : Option String)
    (freshId : String) : HandlerResult Wishlist :=
  if !(truthy name) then
    .failure 400 "Wishlist name is required"
  else if invalidType ty then
    .failure 400 "Type must be either private or collaborative"
  else
    .ok 201
      { id := freshId
        name := name.getD ""
        description := match description with
          | some d => d
          | none => ""
        owner := userId
        type := match ty with
          | some t => if t = "" then "private" else t
          | none => "private"
        items := []
        collaborators := []
        pendingInvites := [] }

/-- `getWishlist` handler (GET /api/wishlists/:id): 404 if absent, 403 unless
the caller is the owner or a collaborator, else the document. -/
def getWishlist (found : Option Wishlist) (userId : String) :
    HandlerResult Wishlist :=
  match found with
  | none => .failure 404 "Wishlist not found"
  | some wishlist =>
    let isOwner := wishlist.owner = userId
    let isCollaborator := wishlist.collaborators.contains userId
    if !isOwner && !isCollaborator then
      .failure 403 "You do not have access to this wishlist"
    else
      .ok 200 wishlist

/-- `updateWishlist` handler (PUT /api/wishlists/:id): owner only; applies
`name` when truthy, `description` when defined, `type` when truthy and one of
the two allowed strings. -/
def updateWishlist (found : Option Wishlist) (userId : String)
    (name description ty : Option String) : HandlerResult Wishlist :=
  match found with
  | none => .failure 404 "Wishlist not found"
  | some wishlist =>
    if wishlist.owner != userId then
      .failure 403 "Only the owner can update this wishlist"
    else
      let w1 := match name with
        | some n => if n != "" then { wishlist with name := n } else wishlist
        | none => wishlist
      let w2 := match description with
        | some d => { w1 with description := d }
        | none => w1
      let w3 := match ty with
        | some t =>
          if (t != "") && ["private", "collaborative"].contains t then
            { w2 with type := t }
          else w2
        | none => w2
      .ok 200 w3

/-- `deleteWishlist` handler (DELETE /api/wishlists/:id): owner only. -/
def deleteWishlist (found : Option Wishlist) (userId : String) :
    HandlerResult Wishlist :=
  match found with
  | none => .failure 404 "Wishlist not found"
  | some wishlist =>
    if wishlist.owner != userId then
      .failure 403 "Only the owner can delete this wishlist"
    else
      .ok 200 wishlist

/-- The `price || null` coercion in `addItem`: a falsy price (absent, or the
number 0) is stored as null. -/
def coercePrice (price : Option Int) : Option Int :=
  match price with
  | some p => if p = 0 then none else some p
  | none => none

/-- `addItem` handler (POST /api/wishlists/:id/items): owner or collaborator;
name required; appends the new item at the end of the sequence. -/
def addItem (found : Option Wishlist) (userId : String)
    (name description : Option String) (price : Option Int)
    (url : Option String) (freshItemId : String) (now : Nat) :
    HandlerResult Wishlist :=
  match found with
  | none => .failure 404 "Wishlist not found"
  | some wishlist =>
    let isOwner := wishlist.owner = userId
    let isCollaborator := wishlist.collaborators.contains userId
    if !isOwner && !isCollaborator then
      .failure 403 "You do not have access to this wishlist"
    else if !(truthy name) then
      .failure 400 "Item name is required"
    else
      .ok 201
        { wishlist with
          items := wishlist.items ++
            [{ id := freshItemId
               name := name.getD ""
               description := match description with
                 | some d => d
                 | none => ""
               price := coercePrice price
               url := match url with
                 | some u => u
                 | none => ""
               isPurchased := false
               addedBy := userId
               createdAt := now }] }

/-- A partial item patch, as destructured from the request body of
`updateItem`; `none` means the field was absent (`undefined`). -/
structure ItemPatch where
  name : Option String := none
  description : Option String := none
  price : Option (Option Int) := none
  url : Option String := none
  isPurchased : Option Bool := none
  deriving Repr, DecidableEq

/-- The field-by-field patch application of `updateItem`: `name` only when
truthy, the other four whenever defined. -/
def applyPatch (item : Item) (p : ItemPatch) : Item :=
  let i1 := match p.name with
    | some n => if n != "" then { item with name := n } else item
    | none => item
  let i2 := match p.description with
    | some d => { i1 with description := d }
    | none => i1
  let i3 := match p.price with
    | some v => { i2 with price := v }
    | none => i2
  let i4 := match p.url with
    | some u => { i3 with url := u }
    | none => i3
  match p.isPurchased with
  | some b => { i4 with isPurchased := b }
  | none => i4

/-- In-place mutation of the first item with the given id (the `find` then
field assignment in `updateItem`); `none` when no item matches. -/
def patchFirst : List Item → String → ItemPatch → Option (List Item)
  | [], _, _ => none
  | i :: rest, itemId, p =>
    if i.id = itemId then
      some (applyPatch i p :: rest)
    else
      (patchFirst rest itemId p).map (i :: ·)

/-- `updateItem` handler (PUT /api/wishlists/:id/items/:itemId): owner or
collaborator; 404 when no item has the identifier; otherwise partial patch. -/
def updateItem (found : Option Wishlist) (userId : String) (itemId : String)
    (p : ItemPatch) : HandlerResult Wishlist :=
  match found with
  | none => .failure 404 "Wishlist not found"
  | some wishlist =>
    let isOwner := wishlist.owner = userId
    let isCollaborator := wishlist.collaborators.contains userId
    if !isOwner && !isCollaborator then
      .failure 403 "You do not have access to this wishlist"
    else
      match patchFirst wishlist.items itemId p with
      | none => .failure 404 "Item not found"
      | some items2 => .ok 200 { wishlist with items := items2 }

/-- `deleteItem` handler (DELETE /api/wishlists/:id/items/:itemId), translated
exactly as written: the item is looked up (`const item = wishlist.items.find
(...)`) but the lookup result is never used — nothing is removed, the
document is saved unchanged, and the handler answers 200 for every itemId. -/
def deleteItem (found : Option Wishlist) (userId : String) (itemId : String) :
    HandlerResult Wishlist :=
  match found with
  | none => .failure 404 "Wishlist not found"
  | some wishlist =>
    let isOwner := wishlist.owner = userId
    let isCollaborator := wishlist.collaborators.contains userId
    if !isOwner && !isCollaborator then
      .failure 403 "You do not have access to this wishlist"
    else
      let _item := wishlist.items.find? (fun i => i.id = itemId)
      .ok 200 wishlist

/-- `inviteCollaborator` handler (POST /api/wishlists/:id/invite).
`existingUser` is the result of `User.findOne({ email })`.  Note the order of
checks: ownership (403) before the collaborative-type check, which answers
HTTP 400; and the pending-invite duplicate test compares the *raw* request
email against the stored (already normalized) entries, while the value pushed
is normalized by the schema setters. -/
def inviteCollaborator (found : Option Wishlist) (userId : String)
    (email : Option String) (existingUser : Option UserRec) :
    HandlerResult Wishlist :=
  match found with
  | none => .failure 404 "Wishlist not found"
  | some wishlist =>
    if wishlist.owner != userId then
      .failure 403 "Only the owner can invite collaborators"
    else if wishlist.type != "collaborative" then
      .failure 400 "This wishlist is private. Change it to collaborative first."
    else if !(truthy email) then
      .failure 400 "Email is required"
    else
      let e := email.getD ""
      match existingUser with
      | some u =>
        if wishlist.collaborators.contains u.id then
          .failure 400 "User is already a collaborator"
        else if u.id = userId then
          .failure 400 "You are already the owner"
        else
          .ok 200 { wishlist with collaborators := wishlist.collaborators ++ [u.id] }
      | none =>
        if wishlist.pendingInvites.contains e then
          .failure 400 "Invite already sent to this email"
        else
          .ok 200
            { wishlist with
              pendingInvites := wishlist.pendingInvites ++ [normalizeEmail e] }

/-- `removeCollaborator` handler (DELETE /api/wishlists/:id/collaborators/:userId):
owner only; filters the target out of the collaborator list and saves —
succeeding whether or not the target was present. -/
def removeCollaborator (found : Option Wishlist) (userId : String)
    (target : String) : HandlerResult Wishlist :=
  match found with
  | none => .failure 404 "Wishlist not found"
  | some wishlist =>
    if wishlist.owner != userId then
      .failure 403 "Only the owner can remove collaborators"
    else
      .ok 200
        { wishlist with
          collaborators := wishlist.collaborators.filter (· != target) }

/-- The aggregate operations of the wishlist controller that mutate an
existing wishlist document, with the request-level inputs each one carries
(the database lookup results a step depends on — the caller identity and,
for invites, the `User.findOne` answer — are part of the operation). -/
inductive Op where
  | updateMeta (caller : String) (name description ty : Option String)
  | addOne (caller : String) (name description : Option String)
      (price : Option Int) (url : Option String) (freshItemId : String)
      (now : Nat)
  | patchOne (caller : String) (itemId : String) (p : ItemPatch)
  | deleteOne (caller : String) (itemId : String)
  | invite (caller : String) (email : Option String)
      (existingUser : Option UserRec)
  | removeCollab (caller : String) (target : String)
  deriving Repr

/-- One read-modify-write round trip: run the handler on the stored document;
a successful handler persists the document it answers with, a failure leaves
the store untouched. -/
def applyOp (w : Wishlist) (op : Op) : Wishlist :=
  let result := match op with
    | .updateMeta caller name description ty =>
        updateWishlist (some w) caller name description ty
    | .addOne caller name description price url freshItemId now =>
        addItem (some w) caller name description price url freshItemId now
    | .patchOne caller itemId p => updateItem (some w) caller itemId p
    | .deleteOne caller itemId => deleteItem (some w) caller itemId
    | .invite caller email existingUser =>
        inviteCollaborator (some w) caller email existingUser
    | .removeCollab caller target => removeCollaborator (some w) caller target
  match result with
  | .ok _ w2 => w2
  | .failure _ _ => w

/-- Wishlist states reachable from a successful `createWishlist` through any
sequence of aggregate operations. -/
inductive Reachable : Wishlist → Prop
  | created (userId : String) (name description ty : Option String)
      (freshId : String) (w : Wishlist) :
      createWishlist userId name description ty freshId = .ok 201 w →
      Reachable w
  | step (w : Wishlist) (op : Op) : Reachable w → Reachable (applyOp w op)

/-- `login` handler (POST /api/auth/login).  `foundUser` is the result of
`User.findOne({ email })` and `passwordValid` the result of the bcrypt
comparison for that user; on success the handler issues a token for the user
identifier, which is what the payload carries here. -/
def login (email password : Option String) (foundUser : Option UserRec)
    (passwordValid : Bool) : HandlerResult String :=
  if !(truthy email) || !(truthy password) then
    .failure 400 "Please provide email and password"
  else
    match foundUser with
    | none => .failure 401 "Invalid email or password"
    | some user =>
      if !passwordValid then
        .failure 401 "Invalid email or password"
      else
        .ok 200 user.id

/-! ### Token issuer (`src/utils/jwt.ts`)

`generateToken` wraps `jwt.sign({ userId }, JWT_SECRET, { expiresIn: '7d' })`
and `verifyToken` wraps `jwt.verify(token, JWT_SECRET)`, catching every
verification error as `null`.  The `jsonwebtoken` library is external to the
repository; its documented behavior is embedded: signing records the payload
together with an `exp` claim of issuance time plus the configured lifetime
(7 days = 604800 seconds), and verification succeeds exactly when the token
was signed with the same secret and the current clock is strictly before
`exp` (the library rejects once `clockTimestamp >= exp`). -/

/-- The process-wide signing secret loaded once at startup. -/
def JWT_SECRET : String := "fallback-secret-only-for-development"

/-- The configured token lifetime: `'7d'`, in seconds. -/
def JWT_EXPIRES_IN : Nat := 7 * 24 * 60 * 60

/-- A signed token: the embedded user identifier, the expiry claim, and the
secret it was signed with (standing for the signature). -/
structure Token where
  userId : String
  exp : Nat
  signedWith : String
  deriving Repr, DecidableEq

/-- `generateToken(userId)` at clock time `now` (seconds since epoch). -/
def generateToken (now : Nat) (userId : String) : Token :=
  { userId := userId, exp := now + JWT_EXPIRES_IN, signedWith := JWT_SECRET }

/-- `verifyToken(token)` at clock time `now`: the embedded user identifier
when the signature checks out and the token is unexpired, otherwise null. -/
def verifyToken (now : Nat) (t : Token) : Option String :=
  if t.signedWith = JWT_SECRET && now < t.exp then
    some t.userId
  else
    none

/-! ### Concrete fixtures used by witnesses and counterexamples -/

/-- A concrete stored item. -/
def itemGift : Item :=
  { id := "i1", name := "gift", description := "a gift", price := some 5,
    url := "http://shop.example", isPurchased := false, addedBy := "u-alice",
    createdAt := 10 }

/-- A collaborative wishlist owned by alice with bob as collaborator, one
item, and one pending invite already stored (in normalized form). -/
def wlShared : Wishlist :=
  { id := "w1", name := "Birthday", description := "", owner := "u-alice",
    type := "collaborative", items := [itemGift], collaborators := ["u-bob"],
    pendingInvites := ["foo@x.com"] }

/-- A private wishlist owned by alice. -/
def wlPrivate : Wishlist :=
  { id := "w2", name := "Secret", description := "", owner := "u-alice",
    type := "private", items := [], collaborators := [],
    pendingInvites := [] }

/-- The wishlist document produced by a concrete successful create. -/
def wlCreated : Wishlist :=
  { id := "w9", name := "N", description := "", owner := "u-alice",
    type := "private", items := [], collaborators := [],
    pendingInvites := [] }

/-! ## Theorems -/

/-- C1.  `deleteItem` is claimed to fail with NotFoundError on a missing
itemId and otherwise remove exactly that item and persist the wishlist
without it.  The handler as written does neither: on the fixture wishlist,
which demonstrably contains item "i1", deleting "i1" answers 200 and persists
the document unchanged (the item is still in the sequence), and deleting the
absent id "zzz" also answers 200 instead of 404. -/
theorem deleteItem_no_removal_no_notfound :
    deleteItem (some wlShared) "u-alice" "i1" = .ok 200 wlShared ∧
    wlShared.items.any (fun i => i.id == "i1") = true ∧
    deleteItem (some wlShared) "u-alice" "zzz" = .ok 200 wlShared := by
  decide

/-- C7.  A login against a registered account with a wrong password and a
login with an email no account has produce byte-identical failure responses:
both are 401 with the message "Invalid email or password". -/
theorem login_failure_indistinguishable
    (email password email2 password2 : Option String) (u : UserRec) (pw : Bool)
    (h1 : truthy email = true) (h2 : truthy password = true)
    (h3 : truthy email2 = true) (h4 : truthy password2 = true) :
    login email password (some u) false = .failure 401 "Invalid email or password" ∧
    login email2 password2 none pw = .failure 401 "Invalid email or password" ∧
    login email password (some u) false = login email2 password2 none pw := by
  refine ⟨?_, ?_, ?_⟩ <;> simp [login, h1, h2, h3, h4]

/-- Witness for C7 at concrete inputs. -/
theorem login_failure_indistinguishable_witness :
    login (some "a@b.c") (some "hunter2")
        (some { id := "u1", username := "al", email := "a@b.c" }) false =
      login (some "z@y.x") (some "pw") none true :=
  (login_failure_indistinguishable (some "a@b.c") (some "hunter2")
      (some "z@y.x") (some "pw") { id := "u1", username := "al", email := "a@b.c" }
      true rfl rfl rfl rfl).2.2

/-- C8.  A token issued for `userId` at time `t0` verifies to `userId` at any
clock time from issuance up to (strictly before) `t0` plus the configured
7-day lifetime, and verification fails once the expiry is reached. -/
theorem verify_issue_roundtrip (userId : String) (t0 now : Nat) :
    (t0 ≤ now → now < t0 + JWT_EXPIRES_IN →
      verifyToken now (generateToken t0 userId) = some userId) ∧
    (t0 + JWT_EXPIRES_IN ≤ now →
      verifyToken now (generateToken t0 userId) = none) := by
  constructor
  · intro _ h2
    simp [verifyToken, generateToken, h2]
  · intro h
    simp [verifyToken, generateToken]
    omega

/-- Witness for C8: immediately after issuance the token verifies; exactly at
the 7-day mark (604800 seconds) it no longer does. -/
theorem verify_issue_roundtrip_witness :
    verifyToken 0 (generateToken 0 "u7") = some "u7" ∧
    verifyToken 604800 (generateToken 0 "u7") = none :=
  ⟨(verify_issue_roundtrip "u7" 0 0).1 (by decide) (by decide),
   (verify_issue_roundtrip "u7" 0 604800).2 (by decide)⟩

/-- C9.  Whenever `addItem` is called with `price = 0` by an authorized
requester with a valid name, it succeeds and the item appended to the stored
wishlist has a null price — the `price || null` coercion turns 0 into null. -/
theorem addItem_zero_price_stored_null (w : Wishlist) (userId : String)
    (name description url : Option String) (freshItemId : String) (now : Nat)
    (haccess : w.owner = userId ∨ userId ∈ w.collaborators)
    (hname : truthy name = true) :
    ∃ it, addItem (some w) userId name description (some 0) url freshItemId now =
        .ok 201 { w with items := w.items ++ [it] } ∧ it.price = none := by
  have hacc : (!(decide (w.owner = userId)) && !(w.collaborators.contains userId)) = false := by
    rcases haccess with h | h
    · simp [h]
    · have hc : w.collaborators.contains userId = true :=
        List.elem_eq_true_of_mem h
      simp [hc]
      exact fun _ => h
  simp only [addItem, hacc, Bool.false_eq_true, if_false, hname, Bool.not_true,
    if_true]
  exact ⟨_, rfl, by simp [coercePrice]⟩

/-- Witness for C9: bob (a collaborator) adds an item with price 0. -/
theorem addItem_zero_price_stored_null_witness :
    ∃ it, addItem (some wlShared) "u-bob" (some "toy") none (some 0) none "i9" 42 =
        .ok 201 { wlShared with items := wlShared.items ++ [it] } ∧
      it.price = none :=
  addItem_zero_price_stored_null wlShared "u-bob" (some "toy") none none "i9" 42
    (Or.inr (by decide)) rfl

/-- C10.  When the owner removes a `userId` that is not in the collaborator
list, the handler still answers 200 and the persisted wishlist is exactly the
one that was stored — no field changes and no NotFoundError is raised. -/
theorem removeCollaborator_absent_is_noop (w : Wishlist) (caller target : String)
    (howner : caller = w.owner) (habsent : target ∉ w.collaborators) :
    removeCollaborator (some w) caller target = .ok 200 w := by
  subst howner
  have hfilter : w.collaborators.filter (· != target) = w.collaborators :=
    List.filter_eq_self.mpr fun a ha =>
      bne_iff_ne.mpr fun h => habsent (h ▸ ha)
  simp [removeCollaborator, hfilter]

/-- Witness for C10: alice removes an id that was never a collaborator. -/
theorem removeCollaborator_absent_is_noop_witness :
    removeCollaborator (some wlShared) "u-alice" "u-zed" = .ok 200 wlShared :=
  removeCollaborator_absent_is_noop wlShared "u-alice" "u-zed" rfl (by decide)

/-- C2 counterexample.  The claim says inviting to a private wishlist fails
with HTTP 403 for every caller, the owner included.  When the owner of the
private fixture invites, the handler answers HTTP 400 — not 403 — with the
collaborative-type policy message. -/
theorem invite_private_owner_gets_400 :
    inviteCollaborator (some wlPrivate) "u-alice" (some "new@x.com") none =
      .failure 400 "This wishlist is private. Change it to collaborative first." ∧
    (inviteCollaborator (some wlPrivate) "u-alice" (some "new@x.com") none).status ≠ 403 := by
  decide

/-- C2 amended.  Inviting to a private-type wishlist always fails, but the
status depends on the caller: the ownership check runs first, so a non-owner
fails with 403 ("Only the owner can invite collaborators") before the type is
ever inspected, while the owner reaches the type check and fails with HTTP
400 and the policy message. -/
theorem invite_private_always_fails (w : Wishlist) (caller : String)
    (email : Option String) (eu : Option UserRec)
    (hpriv : w.type = "private") :
    (caller = w.owner →
      inviteCollaborator (some w) caller email eu =
        .failure 400 "This wishlist is private. Change it to collaborative first.") ∧
    (caller ≠ w.owner →
      inviteCollaborator (some w) caller email eu =
        .failure 403 "Only the owner can invite collaborators") := by
  constructor
  · intro h
    subst h
    simp [inviteCollaborator, hpriv]
  · intro h
    have hb : (w.owner != caller) = true := bne_iff_ne.mpr (Ne.symm h)
    simp [inviteCollaborator, hb]

/-- Witness for C2 amended: both branches on the private fixture. -/
theorem invite_private_always_fails_witness :
    inviteCollaborator (some wlPrivate) "u-alice" (some "a@b.c") none =
      .failure 400 "This wishlist is private. Change it to collaborative first." ∧
    inviteCollaborator (some wlPrivate) "u-zed" (some "a@b.c") none =
      .failure 403 "Only the owner can invite collaborators" :=
  ⟨(invite_private_always_fails wlPrivate "u-alice" (some "a@b.c") none rfl).1 rfl,
   (invite_private_always_fails wlPrivate "u-zed" (some "a@b.c") none rfl).2
     (by decide)⟩

/-- C3 counterexample.  The claim says re-inviting a pending address in a
different letter case conflicts rather than adding a second entry.  On the
fixture, whose pending set already holds "foo@x.com", inviting "FOO@x.com"
(no registered user) succeeds and the persisted pending set holds the address
twice: the duplicate check compares the raw request email while the stored
entries are normalized. -/
theorem invite_case_variant_appends_duplicate :
    inviteCollaborator (some wlShared) "u-alice" (some "FOO@x.com") none =
      .ok 200 { wlShared with pendingInvites := ["foo@x.com", "foo@x.com"] } := by
  decide

/-- C3 amended.  In the deferred path the handler conflicts only when the
raw request email is character-for-character already in the pending set;
otherwise it appends the lowercased, trimmed form of the input — so a case or
whitespace variant of a pending address is appended as a duplicate normalized
entry instead of conflicting. -/
theorem invite_deferred_path (w : Wishlist) (caller e : String)
    (howner : caller = w.owner) (htype : w.type = "collaborative")
    (hemail : e ≠ "") :
    (e ∈ w.pendingInvites →
      inviteCollaborator (some w) caller (some e) none =
        .failure 400 "Invite already sent to this email") ∧
    (e ∉ w.pendingInvites →
      inviteCollaborator (some w) caller (some e) none =
        .ok 200 { w with pendingInvites := w.pendingInvites ++ [normalizeEmail e] }) := by
  subst howner
  constructor
  · intro hmem
    have hc : w.pendingInvites.contains e = true := List.elem_eq_true_of_mem hmem
    simp [inviteCollaborator, htype, truthy, hemail, hc]
    exact hmem
  · intro hmem
    have hc : w.pendingInvites.contains e = false := by
      rcases hcc : w.pendingInvites.contains e with _ | _
      · rfl
      · exact absurd (List.mem_of_elem_eq_true hcc) hmem
    simp [inviteCollaborator, htype, truthy, hemail, hc]
    exact hmem

/-- Witness for C3 amended: the exact pending address conflicts, and a case
variant of it is appended in normalized form. -/
theorem invite_deferred_path_witness :
    inviteCollaborator (some wlShared) "u-alice" (some "foo@x.com") none =
      .failure 400 "Invite already sent to this email" ∧
    inviteCollaborator (some wlShared) "u-alice" (some "FOO2@x.com") none =
      .ok 200 { wlShared with
                pendingInvites := wlShared.pendingInvites ++ [normalizeEmail "FOO2@x.com"] } :=
  ⟨(invite_deferred_path wlShared "u-alice" "foo@x.com" rfl rfl (by decide)).1
     (by decide),
   (invite_deferred_path wlShared "u-alice" "FOO2@x.com" rfl rfl (by decide)).2
     (by decide)⟩

/-- C5 counterexample.  The claim says an explicitly supplied empty-string
name is applied.  On the fixture, bob patches item "i1" with `name = ""` and
nothing else: the handler answers 200 but the persisted wishlist is unchanged
— the item is still named "gift", because `if (name)` skips a falsy name. -/
theorem updateItem_empty_name_not_applied :
    updateItem (some wlShared) "u-bob" "i1" { name := some "" } =
      .ok 200 wlShared ∧
    itemGift.name = "gift" := by
  decide

/-- Patching the first item whose id matches, when the sequence splits as a
prefix without the id followed by the matching item. -/
theorem patchFirst_append (pre : List Item) (i : Item) (rest : List Item)
    (itemId : String) (p : ItemPatch)
    (hpre : ∀ j ∈ pre, j.id ≠ itemId) (hid : i.id = itemId) :
    patchFirst (pre ++ i :: rest) itemId p =
      some (pre ++ applyPatch i p :: rest) := by
  induction pre with
  | nil => simp [patchFirst, hid]
  | cons a as ih =>
    have ha : a.id ≠ itemId := hpre a (List.mem_cons_self a as)
    have hrec := ih fun j hj => hpre j (List.mem_cons_of_mem a hj)
    simp [patchFirst, ha, hrec]

/-- C5 amended.  For an authorized requester, `updateItem` on an existing
item replaces exactly the first item carrying the identifier with the patched
item and leaves every other item and every other wishlist field unchanged;
the patch applies `description`, `price`, `url` and `isPurchased` whenever
present — explicit empty string, zero and false included — and leaves absent
fields untouched, but applies `name` only when it is present and non-empty:
a patch with `name = ""` leaves the name as it was. -/
theorem updateItem_partial_patch (w : Wishlist) (caller itemId : String)
    (p : ItemPatch) (pre rest : List Item) (i : Item)
    (hsplit : w.items = pre ++ i :: rest)
    (hpre : ∀ j ∈ pre, j.id ≠ itemId) (hid : i.id = itemId)
    (haccess : w.owner = caller ∨ caller ∈ w.collaborators) :
    updateItem (some w) caller itemId p =
      .ok 200 { w with items := pre ++ applyPatch i p :: rest } ∧
    (applyPatch i p).name =
      (match p.name with
       | some n => if n != "" then n else i.name
       | none => i.name) ∧
    (applyPatch i p).description = p.description.getD i.description ∧
    (applyPatch i p).price = p.price.getD i.price ∧
    (applyPatch i p).url = p.url.getD i.url ∧
    (applyPatch i p).isPurchased = p.isPurchased.getD i.isPurchased ∧
    (applyPatch i p).id = i.id ∧
    (applyPatch i p).addedBy = i.addedBy ∧
    (applyPatch i p).createdAt = i.createdAt := by
  have hacc : (!(decide (w.owner = caller)) && !(w.collaborators.contains caller)) = false := by
    rcases haccess with h | h
    · simp [h]
    · have hc : w.collaborators.contains caller = true :=
        List.elem_eq_true_of_mem h
      simp [hc]
      exact fun _ => h
  have hp := patchFirst_append pre i rest itemId p hpre hid
  refine ⟨?_, ?_, ?_, ?_, ?_, ?_, ?_, ?_, ?_⟩
  · simp only [updateItem, hacc, Bool.false_eq_true, if_false, hsplit, hp]
  all_goals
    rcases p with ⟨pn, pd, pp, pu, pi⟩
    cases pn <;> cases pd <;> cases pp <;> cases pu <;> cases pi <;>
      simp [applyPatch] <;> split <;> simp

/-- Witness for C5 amended, echoing the spec example: a patch of only
`isPurchased` changes just that flag on the matched item. -/
theorem updateItem_partial_patch_witness :
    updateItem (some wlShared) "u-bob" "i1" { isPurchased := some true } =
      .ok 200 { wlShared with
                items := [] ++ applyPatch itemGift { isPurchased := some true } :: [] } ∧
    applyPatch itemGift { isPurchased := some true } =
      { itemGift with isPurchased := true } :=
  ⟨(updateItem_partial_patch wlShared "u-bob" "i1" { isPurchased := some true }
      [] [] itemGift rfl (by simp) rfl (Or.inr (by decide))).1,
   by decide⟩

/-- C4.  The access-policy matrix, handler by handler, for a found wishlist
and any authenticated caller: update-metadata, delete-wishlist, invite and
remove-collaborator succeed only for the owner and answer 403 with the
ownership message for anyone else; read and the three item operations answer
403 exactly for callers who are neither the owner nor a collaborator, and
only succeed for owner or collaborator. -/
theorem access_policy_matrix (w : Wishlist) (caller : String)
    (name description ty : Option String) (price : Option Int)
    (url : Option String) (freshItemId : String) (now : Nat)
    (itemId : String) (p : ItemPatch) (email : Option String)
    (eu : Option UserRec) (target : String) :
    ((updateWishlist (some w) caller name description ty).isOk = true ↔
        caller = w.owner) ∧
    (caller ≠ w.owner →
      updateWishlist (some w) caller name description ty =
        .failure 403 "Only the owner can update this wishlist") ∧
    ((deleteWishlist (some w) caller).isOk = true ↔ caller = w.owner) ∧
    (caller ≠ w.owner →
      deleteWishlist (some w) caller =
        .failure 403 "Only the owner can delete this wishlist") ∧
    ((inviteCollaborator (some w) caller email eu).isOk = true →
      caller = w.owner) ∧
    (caller ≠ w.owner →
      inviteCollaborator (some w) caller email eu =
        .failure 403 "Only the owner can invite collaborators") ∧
    ((removeCollaborator (some w) caller target).isOk = true ↔
      caller = w.owner) ∧
    (caller ≠ w.owner →
      removeCollaborator (some w) caller target =
        .failure 403 "Only the owner can remove collaborators") ∧
    ((getWishlist (some w) caller).isOk = true ↔
      (caller = w.owner ∨ caller ∈ w.collaborators)) ∧
    (¬(caller = w.owner ∨ caller ∈ w.collaborators) →
      getWishlist (some w) caller =
        .failure 403 "You do not have access to this wishlist") ∧
    ((addItem (some w) caller name description price url freshItemId now).isOk = true →
      (caller = w.owner ∨ caller ∈ w.collaborators)) ∧
    (¬(caller = w.owner ∨ caller ∈ w.collaborators) →
      addItem (some w) caller name description price url freshItemId now =
        .failure 403 "You do not have access to this wishlist") ∧
    ((updateItem (some w) caller itemId p).isOk = true →
      (caller = w.owner ∨ caller ∈ w.collaborators)) ∧
    (¬(caller = w.owner ∨ caller ∈ w.collaborators) →
      updateItem (some w) caller itemId p =
        .failure 403 "You do not have access to this wishlist") ∧
    ((deleteItem (some w) caller itemId).isOk = true ↔
      (caller = w.owner ∨ caller ∈ w.collaborators)) ∧
    (¬(caller = w.owner ∨ caller ∈ w.collaborators) →
      deleteItem (some w) caller itemId =
        .failure 403 "You do not have access to this wishlist") := by
  by_cases ho : caller = w.owner
  · subst ho
    refine ⟨?_, ?_, ?_, ?_, ?_, ?_, ?_, ?_, ?_, ?_, ?_, ?_, ?_, ?_, ?_, ?_⟩ <;>
      simp [updateWishlist, deleteWishlist, inviteCollaborator,
        removeCollaborator, getWishlist, addItem, updateItem, deleteItem,
        HandlerResult.isOk]
  · have hbne : (w.owner != caller) = true := bne_iff_ne.mpr (Ne.symm ho)
    have hnd : (decide (w.owner = caller)) = false :=
      decide_eq_false fun hh => ho hh.symm
    by_cases hm : caller ∈ w.collaborators
    · have hcont : w.collaborators.contains caller = true :=
        List.elem_eq_true_of_mem hm
      refine ⟨?_, ?_, ?_, ?_, ?_, ?_, ?_, ?_, ?_, ?_, ?_, ?_, ?_, ?_, ?_, ?_⟩ <;>
        simp [updateWishlist, deleteWishlist, inviteCollaborator,
          removeCollaborator, getWishlist, addItem, updateItem, deleteItem,
          HandlerResult.isOk, hbne, hnd, hcont, ho, hm]
    · have hcont : w.collaborators.contains caller = false := by
        rcases hcc : w.collaborators.contains caller with _ | _
        · rfl
        · exact absurd (List.mem_of_elem_eq_true hcc) hm
      refine ⟨?_, ?_, ?_, ?_, ?_, ?_, ?_, ?_, ?_, ?_, ?_, ?_, ?_, ?_, ?_, ?_⟩ <;>
        simp [updateWishlist, deleteWishlist, inviteCollaborator,
          removeCollaborator, getWishlist, addItem, updateItem, deleteItem,
          HandlerResult.isOk, hbne, hnd, hcont, ho, hm]

/-- Witness for C4: bob (collaborator, not owner) is refused a metadata
update with 403, and zed (non-member) is refused a read with 403. -/
theorem access_policy_matrix_witness :
    updateWishlist (some wlShared) "u-bob" (some "X") none none =
      .failure 403 "Only the owner can update this wishlist" ∧
    getWishlist (some wlShared) "u-zed" =
      .failure 403 "You do not have access to this wishlist" :=
  ⟨(access_policy_matrix wlShared "u-bob" (some "X") none none none none "f" 0
      "i" {} none none "t").2.1 (by decide),
   (access_policy_matrix wlShared "u-zed" (some "X") none none none none "f" 0
      "i" {} none none "t").2.2.2.2.2.2.2.2.2.1 (by decide)⟩

/-- A successful create starts with an empty collaborator list. -/
theorem createWishlist_collaborators_nil (u : String) (n d t : Option String)
    (fid : String) (s : Nat) (w : Wishlist)
    (h : createWishlist u n d t fid = .ok s w) : w.collaborators = [] := by
  simp only [createWishlist] at h
  split_ifs at h
  simp_all
  exact h.2 ▸ rfl

/-- A successful metadata update changes neither owner nor collaborators. -/
theorem updateWishlist_preserves (w : Wishlist) (c : String)
    (n d t : Option String) (s : Nat) (w2 : Wishlist)
    (h : updateWishlist (some w) c n d t = .ok s w2) :
    w2.owner = w.owner ∧ w2.collaborators = w.collaborators := by
  simp only [updateWishlist] at h
  split at h
  · simp at h
  · injection h with h1 h2
    subst h2
    cases n <;> cases d <;> cases t <;> constructor <;>
      simp only [] <;> split_ifs <;> rfl

/-- A successful item insertion changes neither owner nor collaborators. -/
theorem addItem_preserves (w : Wishlist) (c : String) (n d : Option String)
    (pr : Option Int) (u : Option String) (fid : String) (now s : Nat)
    (w2 : Wishlist)
    (h : addItem (some w) c n d pr u fid now = .ok s w2) :
    w2.owner = w.owner ∧ w2.collaborators = w.collaborators := by
  simp only [addItem] at h
  split at h
  · simp at h
  · split at h
    · simp at h
    · injection h with h1 h2
      subst h2
      exact ⟨rfl, rfl⟩

/-- A successful item patch changes neither owner nor collaborators. -/
theorem updateItem_preserves (w : Wishlist) (c itemId : String) (p : ItemPatch)
    (s : Nat) (w2 : Wishlist)
    (h : updateItem (some w) c itemId p = .ok s w2) :
    w2.owner = w.owner ∧ w2.collaborators = w.collaborators := by
  simp only [updateItem] at h
  split at h
  · simp at h
  · split at h
    · simp at h
    · injection h with h1 h2
      subst h2
      exact ⟨rfl, rfl⟩

/-- A successful item delete leaves the whole document unchanged. -/
theorem deleteItem_preserves (w : Wishlist) (c itemId : String) (s : Nat)
    (w2 : Wishlist)
    (h : deleteItem (some w) c itemId = .ok s w2) : w2 = w := by
  simp only [deleteItem] at h
  split at h
  · simp at h
  · injection h with h1 h2
    exact h2.symm

/-- A successful collaborator removal keeps the owner and filters the
collaborator list. -/
theorem removeCollaborator_shape (w : Wishlist) (c target : String) (s : Nat)
    (w2 : Wishlist)
    (h : removeCollaborator (some w) c target = .ok s w2) :
    w2.owner = w.owner ∧
    w2.collaborators = w.collaborators.filter (· != target) := by
  simp only [removeCollaborator] at h
  split at h
  · simp at h
  · injection h with h1 h2
    subst h2
    exact ⟨rfl, rfl⟩

/-- A successful invite keeps the owner and either leaves the collaborator
list alone (deferred path) or appends the id of a registered user who is not
the owner (direct-add path). -/
theorem inviteCollaborator_shape (w : Wishlist) (c : String)
    (e : Option String) (eu : Option UserRec) (s : Nat) (w2 : Wishlist)
    (h : inviteCollaborator (some w) c e eu = .ok s w2) :
    w2.owner = w.owner ∧
    (w2.collaborators = w.collaborators ∨
      ∃ u, eu = some u ∧ u.id ≠ w.owner ∧
        w2.collaborators = w.collaborators ++ [u.id]) := by
  rcases eu with _ | u
  · simp only [inviteCollaborator] at h
    split at h
    · simp at h
    · split at h
      · simp at h
      · split at h
        · simp at h
        · split at h
          · simp at h
          · injection h with h1 h2
            subst h2
            exact ⟨rfl, Or.inl rfl⟩
  · simp only [inviteCollaborator] at h
    split at h
    next hown => simp at h
    next hown =>
      have hoc : w.owner = c := by
        by_contra hne
        exact hown (bne_iff_ne.mpr hne)
      split at h
      · simp at h
      · split at h
        · simp at h
        · split at h
          · simp at h
          · split at h
            next hneq => simp at h
            next hneq =>
              injection h with h1 h2
              subst h2
              refine ⟨rfl, Or.inr ⟨u, rfl, ?_, rfl⟩⟩
              rw [← hoc] at hneq
              exact fun hh => hneq (by simp [hh])

/-- Every aggregate operation preserves the invariant that the owner is not
in the collaborator list. -/
theorem applyOp_preserves (w : Wishlist) (op : Op)
    (h : w.owner ∉ w.collaborators) :
    (applyOp w op).owner ∉ (applyOp w op).collaborators := by
  cases op with
  | updateMeta c n d t =>
    simp only [applyOp]
    cases hres : updateWishlist (some w) c n d t with
    | ok s w2 =>
      obtain ⟨h1, h2⟩ := updateWishlist_preserves w c n d t s w2 hres
      show w2.owner ∉ w2.collaborators
      rw [h1, h2]; exact h
    | failure s m => exact h
  | addOne c n d pr u fid now =>
    simp only [applyOp]
    cases hres : addItem (some w) c n d pr u fid now with
    | ok s w2 =>
      obtain ⟨h1, h2⟩ := addItem_preserves w c n d pr u fid now s w2 hres
      show w2.owner ∉ w2.collaborators
      rw [h1, h2]; exact h
    | failure s m => exact h
  | patchOne c itemId p =>
    simp only [applyOp]
    cases hres : updateItem (some w) c itemId p with
    | ok s w2 =>
      obtain ⟨h1, h2⟩ := updateItem_preserves w c itemId p s w2 hres
      show w2.owner ∉ w2.collaborators
      rw [h1, h2]; exact h
    | failure s m => exact h
  | deleteOne c itemId =>
    simp only [applyOp]
    cases hres : deleteItem (some w) c itemId with
    | ok s w2 =>
      have h2 := deleteItem_preserves w c itemId s w2 hres
      show w2.owner ∉ w2.collaborators
      rw [h2]; exact h
    | failure s m => exact h
  | invite c e eu =>
    simp only [applyOp]
    cases hres : inviteCollaborator (some w) c e eu with
    | ok s w2 =>
      obtain ⟨h1, h2⟩ := inviteCollaborator_shape w c e eu s w2 hres
      show w2.owner ∉ w2.collaborators
      rw [h1]
      rcases h2 with h2 | ⟨u, _, hne, h2⟩
      · rw [h2]; exact h
      · rw [h2]
        intro hmem
        rcases List.mem_append.mp hmem with hin | hin
        · exact h hin
        · exact hne (List.mem_singleton.mp hin).symm
    | failure s m => exact h
  | removeCollab c target =>
    simp only [applyOp]
    cases hres : removeCollaborator (some w) c target with
    | ok s w2 =>
      obtain ⟨h1, h2⟩ := removeCollaborator_shape w c target s w2 hres
      show w2.owner ∉ w2.collaborators
      rw [h1, h2]
      intro hmem
      exact h (List.mem_of_mem_filter hmem)
    | failure s m => exact h

/-- C6.  Along every execution starting from a successful `createWishlist`
and applying any sequence of aggregate operations (metadata update, the
three item operations, invite, remove collaborator), the owner identifier is
never an element of the collaborator list. -/
theorem owner_never_collaborator (w : Wishlist) (h : Reachable w) :
    w.owner ∉ w.collaborators := by
  induction h with
  | created u n d t fid w0 hcreate =>
    rw [createWishlist_collaborators_nil u n d t fid 201 w0 hcreate]
    exact List.not_mem_nil _
  | step w0 op hreach ih => exact applyOp_preserves w0 op ih

/-- Witness for C6 at a concrete reachable state: a freshly created wishlist
after one (failing) invite step. -/
theorem owner_never_collaborator_witness :
    (applyOp wlCreated (Op.invite "u-alice" (some "a@b.c") none)).owner ∉
      (applyOp wlCreated (Op.invite "u-alice" (some "a@b.c") none)).collaborators :=
  owner_never_collaborator _
    (Reachable.step wlCreated (Op.invite "u-alice" (some "a@b.c") none)
      (Reachable.created "u-alice" (some "N") none none "w9" wlCreated rfl))

end WishlistApp
